import Mathlib

/-!
Verification of the Hybrid Student DSS (rule scorer, reconciliation policy,
recommendation synthesizer, classifier wrapper) against its specification.

The embedding follows the Python source:
  * `src/logic/decision_rules.py` — rule sub-scores, total, classification,
    recommendations (the dict access path: `row.get(key, default)` is modelled
    by `Option.getD`; a student record is a record of optional fields).
  * `src/engine/dss_engine_hybrid.py` — hybrid reconciliation (`combine`),
    single-record prediction (`predict_single`), model training wrapper
    (`train_model`) and batch prediction (`apply_ml_predictions`).
Numeric field values are rationals (Python numbers with true division);
rule scores are integers; probabilities are rationals in the model.
-/

namespace DSS

/-- A student record as a dict: each field either present or absent.
Mirrors the keys used by `decision_rules.py` and `dss_engine_hybrid.py`. -/
structure StudentRow where
  G1 : Option ℚ := none
  G2 : Option ℚ := none
  G3 : Option ℚ := none
  absences : Option ℚ := none
  studytime : Option ℚ := none
  failures : Option ℚ := none
  famsup : Option String := none
  Medu : Option ℚ := none
  Fedu : Option ℚ := none
  Dalc : Option ℚ := none
  Walc : Option ℚ := none
  goout : Option ℚ := none
deriving Repr, DecidableEq

/-- Embeds `aps_adjustment` (decision_rules.py lines 6-23), dict path:
`g2 = row.get('G2', 0)`; `if g2 < 10: return 4 elif 10 <= g2 <= 11: return 2; return 0`. -/
def aps_adjustment (row : StudentRow) : ℤ :=
  let g2 := row.G2.getD 0
  if g2 < 10 then 4
  else if 10 ≤ g2 ∧ g2 ≤ 11 then 2
  else 0

/-- Embeds `attendance_risk` (decision_rules.py lines 26-42), dict path:
`absences = row.get('absences', 0)`; `if absences > 15: 3 elif absences >= 5: 1 else 0`. -/
def attendance_risk (row : StudentRow) : ℤ :=
  let absences := row.absences.getD 0
  if absences > 15 then 3
  else if absences ≥ 5 then 1
  else 0

/-- Embeds `family_support_risk` (decision_rules.py lines 45-74), dict path: defaults
`famsup='yes'`, `Medu=2`, `Fedu=2`; `+2` if `famsup == 'no'`,
`+1` if `(medu+fedu)/2 <= 2`. -/
def family_support_risk (row : StudentRow) : ℤ :=
  let famsup := row.famsup.getD "yes"
  let medu := row.Medu.getD 2
  let fedu := row.Fedu.getD 2
  (if famsup = "no" then 2 else 0) +
    (if (medu + fedu) / 2 ≤ 2 then 1 else 0)

/-- Embeds `lifestyle_risk` (decision_rules.py lines 77-110), dict path: defaults
`Dalc=1`, `Walc=1`, `goout=2`, `studytime=2`; `+2` if `(dalc+walc)/2 >= 4`,
`+1` if `goout >= 4`, `+2` if `studytime == 1`. -/
def lifestyle_risk (row : StudentRow) : ℤ :=
  let dalc := row.Dalc.getD 1
  let walc := row.Walc.getD 1
  let goout := row.goout.getD 2
  let studytime := row.studytime.getD 2
  (if (dalc + walc) / 2 ≥ 4 then 2 else 0) +
    (if goout ≥ 4 then 1 else 0) +
    (if studytime = 1 then 2 else 0)

/-- Embeds `compute_total_risk` (decision_rules.py lines 113-128):
sum of the four sub-scores. -/
def compute_total_risk (row : StudentRow) : ℤ :=
  aps_adjustment row + attendance_risk row + family_support_risk row + lifestyle_risk row

/-- Embeds `classify_risk` (decision_rules.py lines 131-145):
`score >= 8 → "High Risk"`, `score >= 4 → "Moderate Risk"`, else `"Low Risk"`. -/
def classify_risk (score : ℤ) : String :=
  if score ≥ 8 then "High Risk"
  else if score ≥ 4 then "Moderate Risk"
  else "Low Risk"

/-- The inner `combine` of `HybridStudentDSS.hybrid_decision`
(dss_engine_hybrid.py lines 221-232); the same if/elif chain appears inline
in `predict_single` (lines 312-318). `0.65` and `0.4` are the source literals. -/
def combine (rule_score : ℤ) (ml_prob : ℚ) : String :=
  if ml_prob > 65/100 ∨ rule_score ≥ 8 then "High Risk"
  else if ml_prob > 4/10 ∨ rule_score ≥ 4 then "Moderate Risk"
  else "Low Risk"

/-- Numeric rank of the tier strings under the spec ordering
Low < Moderate < High. -/
def tierRank (level : String) : ℕ :=
  if level = "High Risk" then 2
  else if level = "Moderate Risk" then 1
  else 0

lemma combine_zero (s : ℤ) : combine s 0 = classify_risk s := by
  unfold combine classify_risk
  rcases le_or_lt 8 s with h8 | h8
  · simp [h8]
  · rcases le_or_lt 4 s with h4 | h4
    · have : ¬ s ≥ 8 := by omega
      simp [this, h4]
      norm_num
    · have h8' : ¬ s ≥ 8 := by omega
      have h4' : ¬ s ≥ 4 := by omega
      simp [h8', h4']
      norm_num

/-- C1: the reconciliation returns High iff probability > 0.65 or the rule
score is ≥ 8; otherwise Moderate iff probability > 0.4 or rule score ≥ 4;
otherwise Low; and for probability 0.7, rule score 2, the tier is High. -/
theorem combine_tier_characterization (score : ℤ) (p : ℚ) :
    (combine score p = "High Risk" ↔ p > 65/100 ∨ score ≥ 8) ∧
    (combine score p = "Moderate Risk" ↔
      ¬(p > 65/100 ∨ score ≥ 8) ∧ (p > 4/10 ∨ score ≥ 4)) ∧
    (combine score p = "Low Risk" ↔
      ¬(p > 65/100 ∨ score ≥ 8) ∧ ¬(p > 4/10 ∨ score ≥ 4)) ∧
    combine 2 (7/10) = "High Risk" := by
  unfold combine
  refine ⟨?_, ?_, ?_, by norm_num⟩ <;> split_ifs with h1 h2 <;> simp_all

/-- C2: degraded-mode equivalence: reconciling with probability 0.0 gives
exactly the pure rule classification, for every score. -/
theorem combine_degraded_eq_classify (score : ℤ) :
    combine score 0 = classify_risk score :=
  combine_zero score

/-- C3: the attendance sub-score is 3 when absences > 15, 1 when
5 ≤ absences ≤ 15, and 0 otherwise; in particular 15 absences score 1
and 16 absences score 3. -/
theorem attendance_risk_bands (row : StudentRow) :
    attendance_risk row =
      (if row.absences.getD 0 > 15 then 3
       else if 5 ≤ row.absences.getD 0 ∧ row.absences.getD 0 ≤ 15 then 1
       else 0) ∧
    attendance_risk { absences := some 15 } = 1 ∧
    attendance_risk { absences := some 16 } = 3 := by
  refine ⟨?_, by norm_num [attendance_risk], by norm_num [attendance_risk]⟩
  unfold attendance_risk
  rcases lt_or_le 15 (row.absences.getD 0) with h | h
  · simp [h]
  · rcases le_or_lt 5 (row.absences.getD 0) with h5 | h5
    · simp [not_lt.mpr h, h5, h]
    · simp [not_lt.mpr h, not_le.mpr h5]

/-- C4: the total risk score is the sum of the four sub-scores, each
sub-score lies in its documented range (APS 0-4, ARS 0-3, FSR 0-3, LRS 0-5),
and the total always lies in [0, 15]. -/
theorem compute_total_risk_bounds (row : StudentRow) :
    compute_total_risk row =
      aps_adjustment row + attendance_risk row +
        family_support_risk row + lifestyle_risk row ∧
    (0 ≤ aps_adjustment row ∧ aps_adjustment row ≤ 4) ∧
    (0 ≤ attendance_risk row ∧ attendance_risk row ≤ 3) ∧
    (0 ≤ family_support_risk row ∧ family_support_risk row ≤ 3) ∧
    (0 ≤ lifestyle_risk row ∧ lifestyle_risk row ≤ 5) ∧
    (0 ≤ compute_total_risk row ∧ compute_total_risk row ≤ 15) := by
  have haps : 0 ≤ aps_adjustment row ∧ aps_adjustment row ≤ 4 := by
    simp only [aps_adjustment]; split_ifs <;> omega
  have hars : 0 ≤ attendance_risk row ∧ attendance_risk row ≤ 3 := by
    simp only [attendance_risk]; split_ifs <;> omega
  have hfsr : 0 ≤ family_support_risk row ∧ family_support_risk row ≤ 3 := by
    simp only [family_support_risk]; split_ifs <;> omega
  have hlrs : 0 ≤ lifestyle_risk row ∧ lifestyle_risk row ≤ 5 := by
    simp only [lifestyle_risk]; split_ifs <;> omega
  refine ⟨rfl, haps, hars, hfsr, hlrs, ?_⟩
  unfold compute_total_risk
  omega

lemma tierRank_combine (s : ℤ) (p : ℚ) :
    tierRank (combine s p) =
      if p > 65/100 ∨ s ≥ 8 then 2
      else if p > 4/10 ∨ s ≥ 4 then 1
      else 0 := by
  unfold combine
  split_ifs <;> decide

lemma rank_mono {A1 A2 B1 B2 : Prop}
    [Decidable A1] [Decidable A2] [Decidable B1] [Decidable B2]
    (hA : A2 → A1) (hB : B2 → B1) :
    (if A2 then 2 else if B2 then 1 else 0 : ℕ) ≤
      (if A1 then 2 else if B1 then 1 else 0) := by
  split_ifs <;>
    first
    | omega
    | exact absurd (hA ‹A2›) ‹¬A1›
    | exact absurd (hB ‹B2›) ‹¬B1›

/-- C5: reconciliation is OR-monotonic: with the rule score fixed, a larger
probability never lowers the final tier, and with the probability fixed, a
larger rule score never lowers the final tier (tiers ranked Low < Moderate
< High). -/
theorem combine_or_monotonic (score s1 s2 : ℤ) (p p1 p2 : ℚ) :
    (p2 ≤ p1 → tierRank (combine score p2) ≤ tierRank (combine score p1)) ∧
    (s2 ≤ s1 → tierRank (combine s2 p) ≤ tierRank (combine s1 p)) := by
  constructor
  · intro hp
    rw [tierRank_combine, tierRank_combine]
    exact rank_mono (fun h => h.imp (fun h2 => lt_of_lt_of_le h2 hp) id)
      (fun h => h.imp (fun h2 => lt_of_lt_of_le h2 hp) id)
  · intro hs
    rw [tierRank_combine, tierRank_combine]
    exact rank_mono (fun h => h.imp id (fun h2 => le_trans h2 hs))
      (fun h => h.imp id (fun h2 => le_trans h2 hs))

/-- Witness for `combine_or_monotonic` at score 5, probabilities 0.1 ≤ 0.5,
and scores 3 ≤ 9 at probability 0.2. -/
theorem combine_or_monotonic_witness :
    tierRank (combine 5 (1/10)) ≤ tierRank (combine 5 (5/10)) ∧
    tierRank (combine 3 (2/10)) ≤ tierRank (combine 9 (2/10)) :=
  ⟨(combine_or_monotonic 5 9 3 (2/10) (5/10) (1/10)).1 (by norm_num),
   (combine_or_monotonic 5 9 3 (2/10) (5/10) (1/10)).2 (by norm_num)⟩

/-! Recommendation synthesizer (`recommend_intervention`,
decision_rules.py lines 169-226). Both the dict and the Series branch of the
source read every field with `row.get(key, default)` and the same defaults,
so one embedding covers both. The sequential `recommendations.append` calls
are modelled as a concatenation of conditional singleton lists, in source
order. -/

def msg_att_critical : String := "⚠️ Critical attendance issue - mandatory attendance counseling"

def msg_att_monitor : String := "⏰ Monitor attendance closely"

def msg_remediation : String := "📚 Academic remediation program required"

def msg_acad_support : String := "📖 Academic support recommended"

def msg_study_skills : String := "⏱️ Study skills workshop - very low study time detected"

def msg_tutoring : String := "📉 Immediate tutoring for failing grades"

def msg_parental : String := "👨‍👩‍👧 Parental engagement initiative"

def msg_urgent_meeting : String := "🚨 URGENT: Schedule intervention meeting with counselor"

def msg_contact_parents : String := "📞 Contact parents/guardians immediately"

def msg_monitoring : String := "📊 Regular monitoring and check-ins"

def msg_default_low : String := "✅ Continue current trajectory"

/-- Embeds `recommend_intervention` (decision_rules.py lines 169-226): factor
messages in source order (attendance, failures, studytime, grade, family
support; defaults `absences=0, failures=0, studytime=2, famsup='yes',
G2=10`), then the tier-level closer; for a tier that is neither
"High Risk" nor "Moderate Risk" the default message is appended only when
the list built so far is empty (`if not recommendations`). -/
def recommend_intervention (row : StudentRow) (risk_level : String) : List String :=
  let absences := row.absences.getD 0
  let failures := row.failures.getD 0
  let studytime := row.studytime.getD 2
  let famsup := row.famsup.getD "yes"
  let g2 := row.G2.getD 10
  let recs :=
    (if absences > 15 then [msg_att_critical]
     else if absences > 5 then [msg_att_monitor]
     else []) ++
    (if failures > 1 then [msg_remediation]
     else if failures = 1 then [msg_acad_support]
     else []) ++
    (if studytime = 1 then [msg_study_skills] else []) ++
    (if g2 < 10 then [msg_tutoring] else []) ++
    (if famsup = "no" then [msg_parental] else [])
  if risk_level = "High Risk" then
    recs ++ [msg_urgent_meeting, msg_contact_parents]
  else if risk_level = "Moderate Risk" then
    recs ++ [msg_monitoring]
  else if recs = [] then [msg_default_low]
  else recs

/-- Modelled from the spec's §4.5 precedence description: the
factor-specific messages in the fixed order attendance → academic
failures → study time → grade → family support. -/
def factorMessages (row : StudentRow) : List String :=
  (if row.absences.getD 0 > 15 then [msg_att_critical]
   else if row.absences.getD 0 > 5 then [msg_att_monitor]
   else []) ++
  (if row.failures.getD 0 > 1 then [msg_remediation]
   else if row.failures.getD 0 = 1 then [msg_acad_support]
   else []) ++
  (if row.studytime.getD 2 = 1 then [msg_study_skills] else []) ++
  (if row.G2.getD 10 < 10 then [msg_tutoring] else []) ++
  (if row.famsup.getD "yes" = "no" then [msg_parental] else [])

lemma msg_default_low_not_in_factorMessages (row : StudentRow) :
    msg_default_low ∉ factorMessages row := by
  unfold factorMessages
  split_ifs <;> simp <;> decide

lemma recommend_intervention_def (row : StudentRow) (risk_level : String) :
    recommend_intervention row risk_level =
      (if risk_level = "High Risk" then
        factorMessages row ++ [msg_urgent_meeting, msg_contact_parents]
      else if risk_level = "Moderate Risk" then
        factorMessages row ++ [msg_monitoring]
      else if factorMessages row = [] then [msg_default_low]
      else factorMessages row) := rfl

lemma closer_case (recs : List String) (risk_level : String) :
    (if risk_level = "High Risk" then
      recs ++ [msg_urgent_meeting, msg_contact_parents]
    else if risk_level = "Moderate Risk" then recs ++ [msg_monitoring]
    else if recs = [] then [msg_default_low]
    else recs) =
      recs ++
        (if risk_level = "High Risk" then [msg_urgent_meeting, msg_contact_parents]
         else if risk_level = "Moderate Risk" then [msg_monitoring]
         else if recs = [] then [msg_default_low]
         else []) := by
  split_ifs <;> simp_all

lemma recommend_eq_factor_append (row : StudentRow) (risk_level : String) :
    recommend_intervention row risk_level =
      factorMessages row ++
        (if risk_level = "High Risk" then [msg_urgent_meeting, msg_contact_parents]
         else if risk_level = "Moderate Risk" then [msg_monitoring]
         else if factorMessages row = [] then [msg_default_low]
         else []) := by
  rw [recommend_intervention_def]
  exact closer_case (factorMessages row) risk_level

/-- C6: for every record the synthesizer emits the factor-specific messages
in the fixed precedence order (attendance, academic failures, study time,
grade, family support) followed by the tier-level advice — two urgent
messages for High, one monitoring message for Moderate — and for the Low
tier it appends the single generic default message exactly when no
factor-specific message fired. -/
theorem recommend_intervention_order_and_default (row : StudentRow) :
    recommend_intervention row "High Risk" =
      factorMessages row ++ [msg_urgent_meeting, msg_contact_parents] ∧
    recommend_intervention row "Moderate Risk" =
      factorMessages row ++ [msg_monitoring] ∧
    recommend_intervention row "Low Risk" =
      factorMessages row ++
        (if factorMessages row = [] then [msg_default_low] else []) ∧
    (msg_default_low ∈ recommend_intervention row "Low Risk" ↔
      factorMessages row = []) := by
  have hH := recommend_eq_factor_append row "High Risk"
  have hM := recommend_eq_factor_append row "Moderate Risk"
  have hL := recommend_eq_factor_append row "Low Risk"
  simp only [reduceIte, String.reduceEq] at hH hM hL
  refine ⟨hH, hM, hL, ?_⟩
  · rw [hL]
    constructor
    · intro hmem
      by_contra hne
      rw [if_neg hne] at hmem
      simp at hmem
      exact msg_default_low_not_in_factorMessages row hmem
    · intro he
      rw [he]
      simp

/-! Hybrid engine (`dss_engine_hybrid.py`): the classifier is abstracted as a
function from a feature vector to a prediction that may raise (an `Except`);
an absent model is `Option.none`, matching `self.model is None or not
self.model_trained`. -/

/-- The trained classifier as used by the engine: maps a feature vector to a
probability, or raises. -/
abbrev MLModel := List ℚ → Except String ℚ

/-- The feature vector `predict_single` builds (dss_engine_hybrid.py lines
298-304): fixed fallback constants `failures=0, absences=0, studytime=2,
G1=0, G2=0`, in the source's column order. -/
def featureVector (student_data : StudentRow) : List ℚ :=
  [student_data.failures.getD 0,
   student_data.absences.getD 0,
   student_data.studytime.getD 2,
   student_data.G1.getD 0,
   student_data.G2.getD 0]

/-- The ML-confidence note appended when the probability exceeds 0.7
(dss_engine_hybrid.py line 325). The source renders the percentage with one
decimal via an f-string; the rendering is abstracted as `toString`. -/
def ml_note (p : ℚ) : String :=
  "🤖 ML model predicts " ++ toString (p * 100) ++ "% failure probability"

/-- Result record of `predict_single` (dss_engine_hybrid.py lines 327-338;
the redundant `breakdown` sub-dict repeats `rule_score` and the probability
and is omitted). -/
structure SingleResult where
  rule_score : ℤ
  rule_level : String
  ml_probability : ℚ
  ml_available : Bool
  final_level : String
  recommendations : List String
deriving Repr, DecidableEq

/-- Embeds `HybridStudentDSS.predict_single` (dss_engine_hybrid.py lines 274-338):
rule score and level; if a model is available, its prediction on the fixed
feature vector, with any prediction error caught and treated as probability
0.0 / unavailable (lines 294-310); the final level via the same if/elif
chain as `hybrid_decision.combine` (lines 312-318, written here as
`combine`); recommendations plus the ML note when available and > 0.7. -/
def predict_single (model : Option MLModel) (student_data : StudentRow) : SingleResult :=
  let rule_score := compute_total_risk student_data
  let rule_level := classify_risk rule_score
  let mlr : ℚ × Bool :=
    match model with
    | none => (0, false)
    | some m =>
      match m (featureVector student_data) with
      | Except.ok p => (p, true)
      | Except.error _ => (0, false)
  let ml_prob := mlr.1
  let ml_available := mlr.2
  let final_level := combine rule_score ml_prob
  let recommendations := recommend_intervention student_data final_level
  let recommendations :=
    if ml_available ∧ ml_prob > 7/10 then recommendations ++ [ml_note ml_prob]
    else recommendations
  { rule_score := rule_score, rule_level := rule_level,
    ml_probability := ml_prob, ml_available := ml_available,
    final_level := final_level, recommendations := recommendations }

/-- The feature columns required for training and prediction
(dss_engine_hybrid.py lines 86 and 182 and 295). -/
def required_features : List String := ["failures", "absences", "studytime", "G1", "G2"]

/-- The training dataset, abstracted to the column names it carries. -/
structure Dataset where
  cols : List String

/-- Embeds `HybridStudentDSS.train_model` (dss_engine_hybrid.py lines 69-124),
control flow only: returns `ok false` (training skipped) when `G3` is
missing or any required feature column is missing; otherwise calls
`model.fit` — which has NO surrounding try/except in the source, so a fit
error propagates out — and on success returns `ok true`. -/
def train_model (d : Dataset) (fitOutcome : Except String Unit) : Except String Bool :=
  if ¬ d.cols.contains "G3" then Except.ok false
  else if (required_features.filter (fun f => ¬ d.cols.contains f)) ≠ [] then Except.ok false
  else
    match fitOutcome with
    | Except.error e => Except.error e
    | Except.ok _ => Except.ok true

/-- Embeds `HybridStudentDSS.apply_ml_predictions` (dss_engine_hybrid.py lines
173-202) over a dataset of `n` rows: when no model is available, the
probability column is all zeros; otherwise the batch prediction runs inside
try/except, and on error the column is set to 0.0 for every row. -/
def apply_ml_predictions (modelAvailable : Bool)
    (batchPredict : Except String (List ℚ)) (n : ℕ) : List ℚ :=
  if ¬ modelAvailable then List.replicate n 0
  else
    match batchPredict with
    | Except.ok ps => ps
    | Except.error _ => List.replicate n 0

/-- Median of a list of rationals, as pandas computes it for a numeric
column: the middle element of the sorted values for odd length, the mean of
the two middle elements for even length (0 for the empty list, where pandas
yields NaN — unused here). -/
def median (xs : List ℚ) : ℚ :=
  let s := xs.insertionSort (· ≤ ·)
  let n := s.length
  if n = 0 then 0
  else if n % 2 = 1 then s.getD (n / 2) 0
  else (s.getD (n / 2 - 1) 0 + s.getD (n / 2) 0) / 2

/-- One feature column of `X = X.fillna(X.median())` (dss_engine_hybrid.py
line 98, recomputed at line 185): every missing entry is replaced by the
median of the present entries of that column. -/
def fillColumn (col : List (Option ℚ)) : List ℚ :=
  col.map (fun v => v.getD (median (col.filterMap id)))

/-- The all-absent dict record. -/
def emptyRow : StudentRow := {}

lemma msg_tutoring_not_in_factorMessages (row : StudentRow) (h : row.G2 = none) :
    msg_tutoring ∉ factorMessages row := by
  unfold factorMessages
  rw [h]
  norm_num
  split_ifs <;>
    simp_all [msg_att_critical, msg_att_monitor, msg_remediation, msg_acad_support,
      msg_study_skills, msg_tutoring, msg_parental]

/-- C7 counterexample: for the concrete dict record with every field absent
(G2 and absences in particular), single-record evaluation completes
normally — no error value exists anywhere on this path — and the rule
scorer has substituted the default G2 = 0 (APS = 4) and absences = 0. -/
theorem predict_single_missing_required_completes :
    emptyRow.G2 = none ∧ emptyRow.absences = none ∧
    aps_adjustment emptyRow = 4 ∧ attendance_risk emptyRow = 0 ∧
    (predict_single none emptyRow).rule_score = 5 ∧
    (predict_single none emptyRow).final_level = "Moderate Risk" ∧
    (predict_single none emptyRow).recommendations = [msg_monitoring] := by
  refine ⟨rfl, rfl, ?_, ?_, ?_, ?_, ?_⟩
  · norm_num [aps_adjustment, emptyRow]
  · norm_num [attendance_risk, emptyRow]
  · norm_num [predict_single, compute_total_risk, aps_adjustment, attendance_risk,
      family_support_risk, lifestyle_risk, emptyRow]
    simp
  · norm_num [predict_single, combine, compute_total_risk, aps_adjustment, attendance_risk,
      family_support_risk, lifestyle_risk, emptyRow]
    simp
  · norm_num [predict_single, combine, compute_total_risk, aps_adjustment, attendance_risk,
      family_support_risk, lifestyle_risk, emptyRow, recommend_intervention]
    simp

/-- C7 amended: single-record evaluation of a dict record never raises;
a missing G2 or absences is scored with the default 0 (so missing G2 yields
the maximal APS = 4 and missing absences yields ARS = 0) exactly as if the
field were present with value 0, and the evaluation still produces the full
rule-based result. -/
theorem predict_single_defaults_for_missing_required
    (m : Option MLModel) (row : StudentRow)
    (hg : row.G2 = none) (ha : row.absences = none) :
    compute_total_risk row =
      compute_total_risk { row with G2 := some 0, absences := some 0 } ∧
    aps_adjustment row = 4 ∧
    attendance_risk row = 0 ∧
    (predict_single m row).rule_score = compute_total_risk row := by
  refine ⟨?_, ?_, ?_, rfl⟩
  · simp [compute_total_risk, aps_adjustment, attendance_risk, family_support_risk,
      lifestyle_risk, hg, ha]
  · norm_num [aps_adjustment, hg]
  · norm_num [attendance_risk, ha]

/-- Witness for `predict_single_defaults_for_missing_required` at the
all-absent record. -/
theorem predict_single_defaults_for_missing_required_witness :
    compute_total_risk emptyRow =
      compute_total_risk { emptyRow with G2 := some 0, absences := some 0 } ∧
    aps_adjustment emptyRow = 4 ∧
    attendance_risk emptyRow = 0 ∧
    (predict_single none emptyRow).rule_score = compute_total_risk emptyRow :=
  predict_single_defaults_for_missing_required none emptyRow rfl rfl

/-- C8 counterexample: on a dataset carrying G3 and every required feature
column, an error raised by `model.fit` propagates out of `train_model` —
there is no try/except around the fit call. -/
theorem train_model_fit_error_propagates :
    train_model ⟨["G3", "failures", "absences", "studytime", "G1", "G2"]⟩
        (Except.error "fit failed") =
      Except.error "fit failed" := rfl

/-- C8 amended: runtime errors during prediction (single-record and batch)
are caught locally and treated as classifier unavailable — probability
forced to 0.0, rule result still produced, final tier falling back to the
pure rule classification — but an error during `model.fit` is not caught in
`train_model` and propagates to its caller. -/
theorem ml_errors_predict_contained_fit_propagates
    (row : StudentRow) (e1 e2 e3 : String) (n : ℕ) (d : Dataset) :
    (predict_single (some (fun _ => Except.error e1)) row).ml_probability = 0 ∧
    (predict_single (some (fun _ => Except.error e1)) row).ml_available = false ∧
    (predict_single (some (fun _ => Except.error e1)) row).rule_score =
      compute_total_risk row ∧
    (predict_single (some (fun _ => Except.error e1)) row).final_level =
      classify_risk (compute_total_risk row) ∧
    apply_ml_predictions true (Except.error e2) n = List.replicate n 0 ∧
    (d.cols.contains "G3" ∧
        required_features.filter (fun f => ¬ d.cols.contains f) = [] →
      train_model d (Except.error e3) = Except.error e3) := by
  refine ⟨rfl, rfl, rfl, ?_, rfl, ?_⟩
  · have h : (predict_single (some (fun _ => Except.error e1)) row).final_level =
        combine (compute_total_risk row) 0 := rfl
    rw [h]
    exact combine_zero _
  · rintro ⟨h3, hf⟩
    unfold train_model
    rw [hf]
    have h3' : "G3" ∈ d.cols := by simpa using h3
    simp [h3']

/-- Witness for `ml_errors_predict_contained_fit_propagates` at the
all-absent record and the full-column dataset. -/
theorem ml_errors_predict_contained_fit_propagates_witness :
    (predict_single (some (fun _ => Except.error "boom")) emptyRow).ml_probability = 0 ∧
    (predict_single (some (fun _ => Except.error "boom")) emptyRow).ml_available = false ∧
    (predict_single (some (fun _ => Except.error "boom")) emptyRow).rule_score =
      compute_total_risk emptyRow ∧
    (predict_single (some (fun _ => Except.error "boom")) emptyRow).final_level =
      classify_risk (compute_total_risk emptyRow) ∧
    apply_ml_predictions true (Except.error "batch boom") 3 = List.replicate 3 0 ∧
    train_model ⟨["G3", "failures", "absences", "studytime", "G1", "G2"]⟩
        (Except.error "fit boom") = Except.error "fit boom" :=
  have h := ml_errors_predict_contained_fit_propagates emptyRow "boom" "batch boom" "fit boom" 3
    ⟨["G3", "failures", "absences", "studytime", "G1", "G2"]⟩
  ⟨h.1, h.2.1, h.2.2.1, h.2.2.2.1, h.2.2.2.2.1, h.2.2.2.2.2 ⟨rfl, rfl⟩⟩

/-- C9 counterexample: take the training column [0, 1, 2, missing] for the
feature `failures`: training imputes the missing entry with the dataset
median 1, but `predict_single` on a record with `failures` missing puts the
fixed constant 0 — not the training median — into the feature vector. -/
theorem predict_single_constants_differ_from_train_median :
    featureVector emptyRow = [0, 0, 2, 0, 0] ∧
    median [0, 1, 2] = 1 ∧
    fillColumn [some 0, some 1, some 2, none] = [0, 1, 2, 1] ∧
    (featureVector emptyRow).getD 0 0 ≠
      median ([some 0, some 1, some 2, none].filterMap id) := by
  refine ⟨rfl, rfl, rfl, ?_⟩
  norm_num [featureVector, emptyRow, median]

/-- C9 amended: training imputes a missing feature value with that
feature's dataset median (present entries are kept unchanged), but the
imputation values are not persisted: the single-record feature vector is
built with the fixed constants failures = 0, absences = 0, studytime = 2,
G1 = 0, G2 = 0 for missing fields, independent of any training data. -/
theorem featureVector_fixed_constants_train_median
    (row : StudentRow) (col : List (Option ℚ)) (i : ℕ) (v : ℚ) :
    (row.failures = none → featureVector row = featureVector { row with failures := some 0 }) ∧
    (row.absences = none → featureVector row = featureVector { row with absences := some 0 }) ∧
    (row.studytime = none → featureVector row = featureVector { row with studytime := some 2 }) ∧
    (row.G1 = none → featureVector row = featureVector { row with G1 := some 0 }) ∧
    (row.G2 = none → featureVector row = featureVector { row with G2 := some 0 }) ∧
    (col[i]? = some none →
      (fillColumn col)[i]? = some (median (col.filterMap id))) ∧
    (col[i]? = some (some v) → (fillColumn col)[i]? = some v) := by
  refine ⟨?_, ?_, ?_, ?_, ?_, ?_, ?_⟩ <;> intro h <;>
    simp [featureVector, fillColumn, List.getElem?_map, h]

/-- Witness for `featureVector_fixed_constants_train_median` at the
all-absent record and the column [5, missing]. -/
theorem featureVector_fixed_constants_train_median_witness :
    featureVector emptyRow = featureVector { emptyRow with failures := some 0 } ∧
    (fillColumn [some 5, none])[1]? =
      some (median ([some 5, none].filterMap id)) ∧
    (fillColumn [some 5, none])[0]? = some 5 :=
  ⟨(featureVector_fixed_constants_train_median emptyRow [some 5, none] 1 5).1 rfl,
   (featureVector_fixed_constants_train_median emptyRow [some 5, none] 1 5).2.2.2.2.2.1 rfl,
   (featureVector_fixed_constants_train_median emptyRow [some 5, none] 0 5).2.2.2.2.2.2 rfl⟩

/-- C10: for a dict record with G2 absent, the rule scorer substitutes
G2 = 0, which yields the maximal academic sub-score APS = 4 (the same as an
explicit G2 = 0), while the recommendation synthesizer substitutes G2 = 10,
which suppresses the tutoring message (the same output as an explicit
G2 = 10) — worst-case for scoring, passing for recommendations. -/
theorem missing_g2_inconsistent_defaults (row : StudentRow) (risk_level : String)
    (h : row.G2 = none) :
    aps_adjustment row = 4 ∧
    aps_adjustment row = aps_adjustment { row with G2 := some 0 } ∧
    msg_tutoring ∉ recommend_intervention row risk_level ∧
    recommend_intervention row risk_level =
      recommend_intervention { row with G2 := some 10 } risk_level := by
  refine ⟨?_, ?_, ?_, ?_⟩
  · norm_num [aps_adjustment, h]
  · simp [aps_adjustment, h]
  · rw [recommend_eq_factor_append]
    simp only [List.mem_append, not_or]
    refine ⟨msg_tutoring_not_in_factorMessages row h, ?_⟩
    split_ifs <;>
      simp [msg_tutoring, msg_urgent_meeting, msg_contact_parents, msg_monitoring,
        msg_default_low]
  · simp [recommend_intervention, h]

/-- Witness for `missing_g2_inconsistent_defaults` at the all-absent record
and the Low tier. -/
theorem missing_g2_inconsistent_defaults_witness :
    aps_adjustment emptyRow = 4 ∧
    aps_adjustment emptyRow = aps_adjustment { emptyRow with G2 := some 0 } ∧
    msg_tutoring ∉ recommend_intervention emptyRow "Low Risk" ∧
    recommend_intervention emptyRow "Low Risk" =
      recommend_intervention { emptyRow with G2 := some 10 } "Low Risk" :=
  missing_g2_inconsistent_defaults emptyRow "Low Risk" rfl

end DSS
